import Mathlib

/-!
Verification of the core of usbctl (suifei/usbctl), a USB/IP device web
manager.  The C implementation lives in src/usbctl.c; the repository also
ships a Go implementation of the same service (the broadcast hub with
bounded per-subscriber queues lives there).  This file gives a shallow
embedding of the parts of the program the specification's claims talk
about — the device-id validator, the bind/unbind orchestration, the
poll-diff-broadcast cycle, the client table, the broadcast hub, and the
config store — and proves or refutes each claim against it.

Modelling conventions: C strings are NUL-free, so a C `char *` is a Lean
`String` (equivalently its `List Char` of data); C `int` is `Int`;
external command execution is a parameter `exec : String → Int × String`
giving the exit status and the captured combined output of a command
line; the line-oriented enumerator-output parser is out of the core per
the spec (§1, §4.2), so a refresh consumes the *parsed* result directly,
an `Option (List Device)` where `none` means every enumerator command
exited non-zero.
-/

namespace Usbctl

/-- Character-list test that `key` occurs at the start of the second list;
this is exactly what `strncmp(line, key, strlen(key)) == 0` computes on
NUL-free C strings. -/
def leadsWith : List Char → List Char → Bool
  | [], _ => true
  | _ :: _, [] => false
  | a :: as, b :: bs => a == b && leadsWith as bs

/-- Substring occurrence test on character lists (used to state that a
diagnostic text does or does not appear inside a response body). -/
def occursIn (needle : List Char) : List Char → Bool
  | [] => needle.isEmpty
  | c :: rest => leadsWith needle (c :: rest) || occursIn needle rest

/-- Copy of at most `n` characters of `s`, the effect of
`safe_strnlen(s, n)` followed by `memcpy` of that many bytes
(usbctl.c:295-300 and its call sites): hard truncation to length `n`. -/
def truncTo (n : Nat) (s : String) : String := String.mk (s.data.take n)

/-- Drop of the first `n` characters, the effect of the C pointer
arithmetic `line + n` on a NUL-terminated string. -/
def dropChars (n : Nat) (s : String) : String := String.mk (s.data.drop n)

/-- Prefix comparison `strncmp(s, key, strlen(key)) == 0` as used by
`load_config` (usbctl.c:657-691). -/
def prefEq (key s : String) : Bool := leadsWith key.data s.data

/-- Character class accepted by `validate_busid` (usbctl.c:357-362):
digits, hyphen, dot. -/
def isBusidChar (c : Char) : Bool :=
  decide (('0' ≤ c ∧ c ≤ '9') ∨ c = '-' ∨ c = '.')

/-- The device-id validator `validate_busid` (usbctl.c:350-364): take
`len = safe_strnlen(busid, 64)`, reject when `len == 0 || len >= 64`,
otherwise accept iff every character is a digit, a hyphen or a dot.
(The C code also rejects a NULL pointer, which has no counterpart for a
Lean `String`.) -/
def validate_busid (s : String) : Bool :=
  let len := min s.data.length 64
  if len = 0 ∨ 64 ≤ len then false
  else s.data.all isBusidChar

/-- Modelled from the spec: the strict identifier grammar of spec §3 as
the claims read it — non-empty, bounded length (64 as in the code),
"digits, dots, and single hyphens only", where single means no two
adjacent hyphens.  This is the spec-side definition used to compare the
documented grammar against the implemented validator. -/
def specBusidGrammar (s : String) : Bool :=
  validate_busid s && noDoubleHyphen s.data
where
  /-- True when the character list has no two adjacent hyphens. -/
  noDoubleHyphen : List Char → Bool
    | c1 :: c2 :: rest => !(c1 == '-' && c2 == '-') && noDoubleHyphen (c2 :: rest)
    | _ => true

/-- The command allow-list check `validate_command` (usbctl.c:367-392),
Unix branch: the command line must start with `usbip`, `lsusb` or
`modprobe` followed by a space or the end of the string. -/
def validate_command_allowed (cmd : String) : Bool :=
  ["usbip", "lsusb", "modprobe"].any fun a =>
    leadsWith a.data cmd.data &&
      (match cmd.data.drop a.data.length with
       | [] => true
       | c :: _ => c == ' ')

/-- Outcome of a bind/unbind request, one constructor per distinct exit
path of `bind_device` / `unbind_device` (usbctl.c:935-998): rejection by
the validator, `snprintf` overflow of the 256-byte command buffer,
rejection by the command allow-list inside `secure_exec_command`, a
non-zero exit of the external command, or success. -/
inductive BindOutcome
  | invalidIdentifier
  | commandTooLong
  | commandNotAllowed
  | externalFailure
  | success
deriving DecidableEq, Repr

/-- `bind_device` (usbctl.c:935-965).  Returns the outcome together with
the list of command lines actually handed to the external gateway (empty
when no external process was invoked).  The captured output buffer is
filled by `secure_exec_command` but never read by the C code afterwards,
so only the exit status of `exec` matters here. -/
def bind_device (exec : String → Int × String) (busid : String) :
    BindOutcome × List String :=
  if validate_busid busid then
    let cmd := "usbip bind -b " ++ busid
    if 256 ≤ cmd.length then (BindOutcome.commandTooLong, [])
    else if validate_command_allowed cmd then
      (if (exec cmd).1 = 0 then BindOutcome.success else BindOutcome.externalFailure, [cmd])
    else (BindOutcome.commandNotAllowed, [])
  else (BindOutcome.invalidIdentifier, [])

/-- `unbind_device` (usbctl.c:968-998), identical to `bind_device` except
for the verb in the constructed command line. -/
def unbind_device (exec : String → Int × String) (busid : String) :
    BindOutcome × List String :=
  if validate_busid busid then
    let cmd := "usbip unbind -b " ++ busid
    if 256 ≤ cmd.length then (BindOutcome.commandTooLong, [])
    else if validate_command_allowed cmd then
      (if (exec cmd).1 = 0 then BindOutcome.success else BindOutcome.externalFailure, [cmd])
    else (BindOutcome.commandNotAllowed, [])
  else (BindOutcome.invalidIdentifier, [])

/-- The constant failure body sent by `handle_client` (usbctl.c:1410-1412)
whenever a bind or unbind operation reports failure. -/
def operation_failed_body : String :=
  "\x7b\"status\":\"failed\",\"error\":\"Operation failed\"\x7d"

/-- The POST /bind and /unbind response of `handle_client`
(usbctl.c:1387-1413): on success a 200 with the fresh devices JSON
embedded, on any failure a 500 with the fixed generic body.
`devicesJson` abstracts `generate_devices_json` output at the time of the
response. -/
def handle_mutation (exec : String → Int × String) (is_bind : Bool) (busid : String)
    (devicesJson : String) : Nat × String :=
  let outcome := (if is_bind then bind_device exec busid else unbind_device exec busid).1
  if outcome = BindOutcome.success then
    (200, "\x7b\"status\":\"success\",\"devices\":" ++ devicesJson ++ "\x7d")
  else (500, operation_failed_body)

/-- One USB device record, `usb_device_t` (usbctl.c:137-141): the bus id
(at most 15 characters in the C `char[16]` field), the free-text info,
and the bound flag. -/
structure Device where
  busid : String
  info : String
  bound : Bool
deriving DecidableEq, Repr

/-- Projection to the pair the polling loop compares positionally
(usbctl.c:1220-1226): the `info` text takes no part in change
detection. -/
def devKey (d : Device) : String × Bool := (d.busid, d.bound)

/-- The change test of `device_poll_thread` (usbctl.c:1216-1227): changed
when the counts differ, otherwise when some index has a differing bus id
(by `strcmp`) or bound flag. -/
def device_changed (prev cur : List Device) : Bool :=
  if prev.length ≠ cur.length then true
  else (prev.zip cur).any fun p => p.1.busid != p.2.busid || p.1.bound != p.2.bound

/-- State owned by the registry side of the poll loop: the canonical
device list `g_devices`/`g_device_count`, the one-shot error latch
`g_usbip_error_shown` (usbctl.c:173), and the log as the list of emitted
messages. -/
structure RegistryState where
  devices : List Device
  usbipErrorShown : Bool
  log : List String
deriving DecidableEq, Repr

/-- `list_usbip_devices` (usbctl.c:796-932) at the parse boundary, as used
by the change-detection and broadcast claims: `none` models the case where
every command in the fallback list failed — then the device list is left
untouched and the latched failure message is appended only if the latch was
clear (usbctl.c:833-839); `some ds` models a successful enumeration whose
output parsed to `ds` (the parse loop stops at `MAX_DEVICES = 32` entries).
The auxiliary `lsusb` pass only rewrites `info` texts and is not modelled.
CAUTION: the `log` component of this coarse step keeps only the latched
message; the program's full per-cycle logging — in particular the
"Command not allowed" entries that `secure_exec_command` emits for the
always-rejected absolute-path fallback commands — is modelled faithfully
by `list_usbip_devices_logged` below, and the logging claim is settled
against that definition, not this one. -/
def list_usbip_step (s : RegistryState) (enum : Option (List Device)) : RegistryState :=
  match enum with
  | none =>
      if s.usbipErrorShown then s
      else { s with usbipErrorShown := true, log := s.log ++ ["Failed to execute usbip"] }
  | some ds => { s with devices := ds.take 32 }

/-- One iteration of `device_poll_thread` (usbctl.c:1208-1233): snapshot
the previous list, refresh, compute the positional change flag, and
broadcast the new list exactly when it changed.  The third component is
the list of snapshots broadcast to subscribers during this cycle. -/
def device_poll_cycle (s : RegistryState) (enum : Option (List Device)) :
    RegistryState × Bool × List (List Device) :=
  let prev := s.devices
  let s' := list_usbip_step s enum
  let changed := device_changed prev s'.devices
  (s', changed, if changed then [s'.devices] else [])

/-- The ordered fallback command list of `list_usbip_devices`, Unix branch
(usbctl.c:817-822). -/
def usbip_commands : List String :=
  ["usbip list -l", "/usr/bin/usbip list -l", "/usr/sbin/usbip list -l"]

/-- `secure_exec_command` (usbctl.c:395-531) at the exit-status and logging
level: a command line rejected by the allow-list is logged as
"Command not allowed" and reported failed with -1 without being executed
(usbctl.c:401-404); an allowed command is executed and yields its exit
status.  (The null-argument check and pipe/fork failures of the C function
are not reachable from the call sites modelled here.) -/
def secure_exec_status (exec : String → Int) (log : List String) (cmd : String) :
    Int × List String :=
  if validate_command_allowed cmd then (exec cmd, log)
  else (-1, log ++ ["Command not allowed"])

/-- The command loop of `list_usbip_devices` (usbctl.c:825-831): try each
command in order through `secure_exec_command`, stopping at the first one
reporting exit status 0; returns whether one succeeded, together with the
accumulated log. -/
def try_usbip_commands (exec : String → Int) : List String → List String → Bool × List String
  | log, [] => (false, log)
  | log, cmd :: rest =>
      let r := secure_exec_status exec log cmd
      if r.1 = 0 then (true, r.2) else try_usbip_commands exec r.2 rest

/-- `list_usbip_devices` (usbctl.c:796-932) with its full logging behavior:
run the command loop (whose allow-list check rejects — and logs — the two
absolute-path fallback commands on every attempt); on success replace the
device list with the parsed result of the winning command's output (the
parser is outside the core, so the parsed list is the `parsed` parameter;
the parse loop stops at `MAX_DEVICES = 32`); on failure leave the devices
untouched and append the latched "Failed to execute usbip" only when it has
not been logged before (usbctl.c:833-839).  The preliminary `lsusb` pass
(usbctl.c:800-806) only fills the info-enhancement map and logs nothing. -/
def list_usbip_devices_logged (exec : String → Int) (parsed : List Device)
    (s : RegistryState) : RegistryState :=
  let r := try_usbip_commands exec s.log usbip_commands
  if r.1 then { s with devices := parsed.take 32, log := r.2 }
  else if s.usbipErrorShown then { s with log := r.2 }
  else { s with usbipErrorShown := true, log := r.2 ++ ["Failed to execute usbip"] }

/-- One polling cycle (usbctl.c:1208-1233) over the log-faithful refresh. -/
def device_poll_cycle_logged (exec : String → Int) (parsed : List Device)
    (s : RegistryState) : RegistryState × Bool × List (List Device) :=
  let s' := list_usbip_devices_logged exec parsed s
  let changed := device_changed s.devices s'.devices
  (s', changed, if changed then [s'.devices] else [])

/-- Iterated polling cycles under the log-faithful model; on a failing
cycle the `parsed` parameter of the refresh is never consulted, so the
iteration fixes it to the empty list. -/
def iter_poll_fail_logged (exec : String → Int) : Nat → RegistryState → RegistryState
  | 0, s => s
  | n + 1, s => iter_poll_fail_logged exec n (device_poll_cycle_logged exec [] s).1

/-- One SSE client slot, `client_t` (usbctl.c:152-157), reduced to the
fields the claims touch: the socket and the SSE flag.  (The peer address
and heartbeat timestamp play no part in membership or counting.) -/
structure ClientSt where
  socket : Int
  is_sse : Bool
deriving DecidableEq, Repr

/-- `MAX_CLIENTS` (usbctl.c:116). -/
def maxClients : Nat := 10

/-- `add_sse_client` (usbctl.c:1147-1157): append the client only when
the table holds fewer than `MAX_CLIENTS` entries; otherwise do nothing —
no error is reported and no log line is written. -/
def add_sse_client (cs : List ClientSt) (sock : Int) : List ClientSt :=
  if cs.length < maxClients then cs ++ [{ socket := sock, is_sse := true }] else cs

/-- `remove_client` (usbctl.c:1160-1170): find the first slot holding the
socket, overwrite it with the last slot, and shrink the table by one. -/
def remove_client (cs : List ClientSt) (sock : Int) : List ClientSt :=
  match cs.findIdx? (fun c => c.socket == sock) with
  | none => cs
  | some i => (cs.set i (cs.getLastD { socket := 0, is_sse := false })).dropLast

/-- `broadcast_devices_update` (usbctl.c:1173-1196) on the client table:
the snapshot is serialized once and sent to every SSE client; a client
whose send reports failure (`result <= 0`) is closed and removed.  The C
loop removes by swapping the last slot into the freed one, which permutes
slot order; the surviving set is exactly the clients that are not SSE
clients or whose send succeeded, which is what this models. -/
def broadcast_clients (sendOk : Int → Bool) (cs : List ClientSt) : List ClientSt :=
  cs.filter fun c => !c.is_sse || sendOk c.socket

/-- Capacity of one subscriber's queue in the repository's Go
implementation of the hub: the per-subscriber channel is created with
capacity 10 in its events handler. -/
def subscriberCap : Nat := 10

/-- The Go hub's publish, `broadcastUpdate` (src/unnamed/part_002): one
copy of the current snapshot is taken, then for each live subscriber a
non-blocking enqueue is attempted on that subscriber's bounded queue (a
`select` with a `default` branch): a full queue drops the update, a
non-full queue receives exactly this snapshot.  A queue is modelled as
the list of snapshots it currently holds. -/
def goBroadcastUpdate (snap : List Device) (queues : List (List (List Device))) :
    List (List (List Device)) :=
  queues.map fun q => if q.length < subscriberCap then q ++ [snap] else q

/-- The configuration record `config_t` (usbctl.c:125-134), minus the
derived count field: `bound_devices` is the list of remembered bound ids
(at most `MAX_DEVICES = 32`, each at most 15 characters). -/
structure ConfigSt where
  port : Int
  bind_address : String
  poll_interval : Int
  verbose_logging : Int
  log_file : String
  config_path : String
  bound_devices : List String
deriving DecidableEq, Repr

/-- Digit-accumulation core of C `atoi`. -/
def digitsVal : List Char → Nat → Nat
  | [], acc => acc
  | c :: rest, acc =>
    if c.isDigit then digitsVal rest (acc * 10 + (c.toNat - 48)) else acc

/-- C `atoi` as used by `load_config`: skip leading whitespace, read an
optional sign, then leading digits. -/
def atoi (s : String) : Int :=
  match s.data.dropWhile (fun c => c == ' ' || c == '\t' || c == '\n') with
  | '-' :: rest => -(digitsVal rest 0 : Int)
  | '+' :: rest => (digitsVal rest 0 : Int)
  | l => (digitsVal l 0 : Int)

/-- `update_bound_devices_config` (usbctl.c:728-739): rebuild the
remembered bound-id list as the bus ids of the currently bound devices,
in device-list order, each truncated to 15 characters, stopping at
`MAX_DEVICES = 32` entries. -/
def update_bound_devices_config (devices : List Device) : List String :=
  ((devices.filter fun d => d.bound).map fun d => truncTo 15 d.busid).take 32

/-- The lines `save_config` (usbctl.c:694-721) writes: the three header
keys, then one `bound_device=` line per non-empty remembered id (after
calling `update_bound_devices_config`). -/
def save_config_lines (cfg : ConfigSt) (devices : List Device) : List String :=
  ["port=" ++ toString cfg.port,
   "bind=" ++ cfg.bind_address,
   "poll_interval=" ++ toString cfg.poll_interval]
    ++ ((update_bound_devices_config devices).filter fun i => 0 < i.length).map
        (fun i => "bound_device=" ++ i)

/-- Processing of one config line by `load_config` (usbctl.c:664-688),
with the C code's key tests in their source order; a `bound_device=` line
is appended (truncated to 15 characters) only while fewer than
`MAX_DEVICES = 32` ids have been collected. -/
def load_line (cfg : ConfigSt) (line : String) : ConfigSt :=
  if prefEq "port=" line then { cfg with port := atoi (dropChars 5 line) }
  else if prefEq "bind=" line then { cfg with bind_address := truncTo 63 (dropChars 5 line) }
  else if prefEq "poll_interval=" line then
    { cfg with poll_interval := atoi (dropChars 14 line) }
  else if prefEq "verbose_logging=" line then
    { cfg with verbose_logging := atoi (dropChars 16 line) }
  else if prefEq "log_file=" line then
    { cfg with log_file := truncTo 255 (dropChars 9 line) }
  else if prefEq "bound_device=" line ∧ cfg.bound_devices.length < 32 then
    { cfg with bound_devices := cfg.bound_devices ++ [truncTo 15 (dropChars 13 line)] }
  else cfg

/-- `load_config` (usbctl.c:657-691): reset the remembered bound-id list,
then process every line of the file in order. -/
def load_config (cfg : ConfigSt) (lines : List String) : ConfigSt :=
  lines.foldl load_line { cfg with bound_devices := [] }

/-- The id sequence `restore_bound_devices` (usbctl.c:742-752) replays,
in order: every non-empty remembered id, each handed to `bind_device`. -/
def restore_sequence (cfg : ConfigSt) : List String :=
  cfg.bound_devices.filter fun s => 0 < s.length

/-- File-system operations `save_config` performs on the config file:
`fopen(path, "w")` (truncating open), sequential `fprintf` writes, and
`fclose`. -/
inductive FsOp
  | openW (path : String)
  | write (path : String) (data : String)
  | closeF (path : String)
deriving DecidableEq, Repr

/-- Effect of one file operation on a name-to-content map: a truncating
open empties the file, a write appends to it, a close changes nothing. -/
def applyOp (fs : String → Option String) : FsOp → String → Option String
  | FsOp.openW p, q => if q = p then some "" else fs q
  | FsOp.write p d, q => if q = p then (fs p).map (fun old => old ++ d) else fs q
  | FsOp.closeF _, q => fs q

/-- Run a sequence of file operations from an initial file-system state. -/
def runOps (fs : String → Option String) (ops : List FsOp) : String → Option String :=
  ops.foldl applyOp fs

/-- The operation trace of `save_config` (usbctl.c:694-721) on the config
file: truncating open of the config path itself, one write per line, then
close.  There is no temporary file and no rename anywhere in the trace.
(The preceding `mkdirs` call only creates parent directories and never
touches the config file.) -/
def save_config_ops (cfg : ConfigSt) (devices : List Device) : List FsOp :=
  FsOp.openW cfg.config_path ::
    ((save_config_lines cfg devices).map (fun l => FsOp.write cfg.config_path (l ++ "\n"))
      ++ [FsOp.closeF cfg.config_path])

/-- Concatenation of a list of strings, in order. -/
def strConcat : List String → String
  | [] => ""
  | s :: rest => s ++ strConcat rest

/-! Helper lemmas. -/

theorem data_app : ∀ (a b : String), (a ++ b).data = a.data ++ b.data
  | ⟨_⟩, ⟨_⟩ => rfl

/-- C8 (amended): characterization of the implemented validator — it
accepts exactly the non-empty strings of fewer than 64 characters drawn
from digits, hyphens and dots.  Adjacent hyphens are NOT rejected, which
is where the implementation is coarser than the spec §3 grammar (see the
counterexample). -/
theorem validate_busid_characterization (s : String) :
    validate_busid s = true ↔
      s.data ≠ [] ∧ s.data.length < 64 ∧
        ∀ c ∈ s.data, ('0' ≤ c ∧ c ≤ '9') ∨ c = '-' ∨ c = '.' := by
  simp only [validate_busid]
  split
  · rename_i h
    simp only [Bool.false_eq_true, false_iff, not_and]
    intro hne hlt
    exfalso
    rcases h with h0 | h64
    · exact hne ((List.length_eq_zero).mp (by omega))
    · omega
  · rename_i h
    push_neg at h
    obtain ⟨h0, h64⟩ := h
    rw [List.all_eq_true]
    constructor
    · intro hall
      refine ⟨fun hnil => h0 (by rw [hnil]; rfl), by omega, fun c hc => ?_⟩
      have := hall c hc
      simpa [isBusidChar] using this
    · rintro ⟨-, -, hall⟩ c hc
      simpa [isBusidChar] using hall c hc

/-- C8 counterexample: the string "1--2" contains two adjacent hyphens,
so the spec §3 grammar rejects it, yet `validate_busid` accepts it — the
validator does not implement the single-hyphen restriction. -/
theorem validate_busid_accepts_double_hyphen_cex :
    validate_busid "1--2" = true ∧ specBusidGrammar "1--2" = false := by decide

/-- C1 (amended): for every input the implemented validator rejects —
which includes every string containing a character outside digits,
hyphens and dots (such as a semicolon or a space), the empty string, and
over-length strings — both `bind_device` and `unbind_device` return the
invalid-identifier failure and hand no command whatsoever to the external
Gateway. -/
theorem invalid_busid_no_gateway (exec : String → Int × String) (s : String)
    (h : validate_busid s = false) :
    bind_device exec s = (BindOutcome.invalidIdentifier, [])
    ∧ unbind_device exec s = (BindOutcome.invalidIdentifier, []) := by
  simp [bind_device, unbind_device, h]

theorem invalid_busid_no_gateway_witness :
    validate_busid "1;2" = false
    ∧ bind_device (fun _ => ((0 : Int), "")) "1;2" = (BindOutcome.invalidIdentifier, [])
    ∧ unbind_device (fun _ => ((0 : Int), "")) "1;2" = (BindOutcome.invalidIdentifier, []) :=
  ⟨by decide,
   (invalid_busid_no_gateway (fun _ => ((0 : Int), "")) "1;2" (by decide)).1,
   (invalid_busid_no_gateway (fun _ => ((0 : Int), "")) "1;2" (by decide)).2⟩

/-- C1 counterexample: "1--2" is rejected by the spec §3 device-id
grammar (adjacent hyphens), yet bind and unbind do not fail with the
invalid-identifier error — they construct a Gateway command line and
execute it. -/
theorem grammar_rejected_id_reaches_gateway_cex :
    specBusidGrammar "1--2" = false
    ∧ (bind_device (fun _ => ((1 : Int), "e")) "1--2").2 = ["usbip bind -b 1--2"]
    ∧ (bind_device (fun _ => ((1 : Int), "e")) "1--2").1 ≠ BindOutcome.invalidIdentifier
    ∧ (unbind_device (fun _ => ((1 : Int), "e")) "1--2").2 = ["usbip unbind -b 1--2"] := by
  decide

/-- C7 counterexample: a bind whose Gateway command exits non-zero with
the diagnostic "usbip: error: device not found" in its captured output is
answered with the fixed generic body; the diagnostic text occurs in the
captured output but nowhere in the response delivered to the caller. -/
theorem failure_response_lacks_diagnostic_cex :
    (bind_device (fun _ => ((1 : Int), "usbip: error: device not found")) "1-1.2").1
      = BindOutcome.externalFailure
    ∧ handle_mutation (fun _ => ((1 : Int), "usbip: error: device not found")) true "1-1.2" "[]"
        = (500, operation_failed_body)
    ∧ occursIn "device not found".data "usbip: error: device not found".data = true
    ∧ occursIn "device not found".data operation_failed_body.data = false := by decide

/-- C7 (amended): whenever a bind or unbind request fails — in particular
whenever the Gateway command exits non-zero — the HTTP response is the
fixed 500 with the generic body "Operation failed"; the diagnostic text
captured from the external command is discarded, never surfaced to the
caller. -/
theorem mutation_failure_generic_body (exec : String → Int × String) (is_bind : Bool)
    (busid devicesJson : String)
    (h : (if is_bind then bind_device exec busid else unbind_device exec busid).1
          ≠ BindOutcome.success) :
    handle_mutation exec is_bind busid devicesJson = (500, operation_failed_body) := by
  simp only [handle_mutation]
  rw [if_neg h]

theorem mutation_failure_generic_body_witness :
    (if true then bind_device (fun _ => ((1 : Int), "no such device")) "3-2"
     else unbind_device (fun _ => ((1 : Int), "no such device")) "3-2").1
        ≠ BindOutcome.success
    ∧ handle_mutation (fun _ => ((1 : Int), "no such device")) true "3-2" "[]"
        = (500, operation_failed_body) :=
  ⟨by decide,
   mutation_failure_generic_body (fun _ => ((1 : Int), "no such device")) true "3-2" "[]"
     (by decide)⟩

theorem device_changed_of_length_ne (prev cur : List Device)
    (h : prev.length ≠ cur.length) : device_changed prev cur = true := by
  simp [device_changed, h]

theorem device_changed_cons (a b : Device) (as bs : List Device)
    (h : as.length = bs.length) :
    device_changed (a :: as) (b :: bs)
      = ((a.busid != b.busid || a.bound != b.bound) || device_changed as bs) := by
  simp [device_changed, h]

theorem device_changed_false_iff (prev cur : List Device) :
    device_changed prev cur = false ↔ prev.map devKey = cur.map devKey := by
  induction prev generalizing cur with
  | nil =>
    cases cur with
    | nil => simp [device_changed]
    | cons b bs => simp [device_changed]
  | cons a as ih =>
    cases cur with
    | nil => simp [device_changed]
    | cons b bs =>
      by_cases hl : as.length = bs.length
      · rw [device_changed_cons a b as bs hl]
        simp only [Bool.or_eq_false_iff, bne_eq_false_iff_eq, List.map_cons,
          List.cons.injEq, ih, devKey, Prod.mk.injEq]
      · rw [device_changed_of_length_ne _ _ (by simp [hl])]
        simp only [Bool.true_eq_false, false_iff, List.map_cons, List.cons.injEq, not_and]
        intro _ hmaps
        exact hl (by simpa using congrArg List.length hmaps)

theorem device_changed_self (l : List Device) : device_changed l l = false :=
  (device_changed_false_iff l l).mpr rfl

/-- C2: the polling loop reports a change exactly when the previous and
the fresh device lists differ under the strictly positional comparison of
(busid, bound) pairs — different lengths, or some position with a
different bus id or bound flag.  In particular a mere reordering of the
same device set compares unequal positionally and is reported as a
change, and a change of an `info` text alone is not. -/
theorem refresh_changed_iff_positional (prev cur : List Device) :
    device_changed prev cur = true ↔ prev.map devKey ≠ cur.map devKey := by
  have h := device_changed_false_iff prev cur
  cases hb : device_changed prev cur <;> simp [hb] at h ⊢ <;> simp [h]

/-- C3: when a polling cycle reports changed = false (the refreshed list
equals the previous one positionally), nothing is broadcast — no
subscriber receives a delivery for that cycle, so an unchanged snapshot
is never delivered twice in a row. -/
theorem unchanged_cycle_no_broadcast (s : RegistryState) (enum : Option (List Device))
    (h : (device_poll_cycle s enum).2.1 = false) :
    (device_poll_cycle s enum).2.2 = [] := by
  simp only [device_poll_cycle] at h ⊢
  rw [h]
  simp

theorem unchanged_cycle_no_broadcast_witness :
    (device_poll_cycle ⟨[], false, []⟩ (some [])).2.1 = false
    ∧ (device_poll_cycle ⟨[], false, []⟩ (some [])).2.2 = [] :=
  ⟨by decide, unchanged_cycle_no_broadcast ⟨[], false, []⟩ (some []) (by decide)⟩

theorem try_usbip_commands_fail (exec : String → Int) (log : List String)
    (h : exec "usbip list -l" ≠ 0) :
    try_usbip_commands exec log usbip_commands
      = (false, log ++ ["Command not allowed", "Command not allowed"]) := by
  have h1 : validate_command_allowed "usbip list -l" = true := by decide
  have h2 : validate_command_allowed "/usr/bin/usbip list -l" = false := by decide
  have h3 : validate_command_allowed "/usr/sbin/usbip list -l" = false := by decide
  simp [usbip_commands, try_usbip_commands, secure_exec_status, h1, h2, h3, h]

theorem list_usbip_logged_fail (exec : String → Int) (parsed : List Device)
    (s : RegistryState) (h : exec "usbip list -l" ≠ 0) :
    list_usbip_devices_logged exec parsed s
      = if s.usbipErrorShown then
          { s with log := s.log ++ ["Command not allowed", "Command not allowed"] }
        else
          { s with usbipErrorShown := true,
                   log := (s.log ++ ["Command not allowed", "Command not allowed"])
                            ++ ["Failed to execute usbip"] } := by
  simp only [list_usbip_devices_logged]
  rw [try_usbip_commands_fail exec s.log h]
  cases hs : s.usbipErrorShown <;> simp [hs]

theorem list_usbip_logged_fail_devices (exec : String → Int) (parsed : List Device)
    (s : RegistryState) (h : exec "usbip list -l" ≠ 0) :
    (list_usbip_devices_logged exec parsed s).devices = s.devices := by
  rw [list_usbip_logged_fail exec parsed s h]
  cases hs : s.usbipErrorShown <;> simp [hs]

theorem poll_logged_fail_changed (exec : String → Int) (parsed : List Device)
    (s : RegistryState) (h : exec "usbip list -l" ≠ 0) :
    (device_poll_cycle_logged exec parsed s).2.1 = false := by
  show device_changed s.devices (list_usbip_devices_logged exec parsed s).devices = false
  rw [list_usbip_logged_fail_devices exec parsed s h]
  exact device_changed_self _

theorem iter_logged_fail_core (exec : String → Int) (h : exec "usbip list -l" ≠ 0) :
    ∀ (n : Nat) (s : RegistryState), 1 ≤ n →
      (iter_poll_fail_logged exec n s).devices = s.devices
      ∧ (iter_poll_fail_logged exec n s).log.length
          = s.log.length + 2 * n + (if s.usbipErrorShown then 0 else 1)
      ∧ (iter_poll_fail_logged exec n s).log.count "Failed to execute usbip"
          = s.log.count "Failed to execute usbip"
            + (if s.usbipErrorShown then 0 else 1) := by
  have c0 : (["Command not allowed", "Command not allowed"] : List String).count
      "Failed to execute usbip" = 0 := by decide
  have c1 : (["Failed to execute usbip"] : List String).count
      "Failed to execute usbip" = 1 := by decide
  intro n
  induction n with
  | zero => intro s h0; exact absurd h0 (by omega)
  | succ n ih =>
    intro s _
    have hstep : (device_poll_cycle_logged exec [] s).1
        = list_usbip_devices_logged exec [] s := rfl
    by_cases hn : n = 0
    · subst hn
      simp only [iter_poll_fail_logged, hstep]
      rw [list_usbip_logged_fail exec [] s h]
      cases hs : s.usbipErrorShown <;>
        simp [hs, List.length_append, List.count_append, c0, c1]
    · have hn1 : 1 ≤ n := by omega
      simp only [iter_poll_fail_logged, hstep]
      rw [list_usbip_logged_fail exec [] s h]
      cases hs : s.usbipErrorShown
      · simp only [hs, Bool.false_eq_true, if_false]
        obtain ⟨d1, d2, d3⟩ := ih
          { s with usbipErrorShown := true,
                   log := (s.log ++ ["Command not allowed", "Command not allowed"])
                            ++ ["Failed to execute usbip"] } hn1
        refine ⟨by simpa using d1, ?_, ?_⟩
        · rw [d2]
          simp [List.length_append]
          omega
        · rw [d3]
          simp [List.count_append, c0, c1]
      · simp only [hs, if_true]
        obtain ⟨d1, d2, d3⟩ := ih
          ⟨s.devices, true, s.log ++ ["Command not allowed", "Command not allowed"]⟩ hn1
        refine ⟨by simpa using d1, ?_, ?_⟩
        · rw [d2]
          simp [List.length_append]
          omega
        · rw [d3]
          simp [List.count_append, c0]

/-- C4 counterexample: with the enumerator unavailable (the one allowed
command exits non-zero), already the first failing cycle emits three log
entries — "Command not allowed" twice, because the absolute-path fallback
commands "/usr/bin/usbip list -l" and "/usr/sbin/usbip list -l" can never
pass the allow-list check, plus the latched failure message — and three
consecutive failing cycles emit seven entries, refuting "the failure is
logged exactly once, not once per cycle". -/
theorem enumerator_failure_logs_every_cycle_cex :
    (iter_poll_fail_logged (fun _ => (1 : Int)) 1 ⟨[], false, []⟩).log
      = ["Command not allowed", "Command not allowed", "Failed to execute usbip"]
    ∧ (iter_poll_fail_logged (fun _ => (1 : Int)) 3 ⟨[], false, []⟩).log.length = 7 := by
  decide

/-- C4 (amended): across any n ≥ 1 consecutive polling cycles in which
every enumerator command invocation fails (the allowed command exits
non-zero; the two absolute-path fallbacks are rejected by the allow-list
before ever running), the canonical device list is left exactly as it was
(so still empty when no enumeration ever succeeded) and every such cycle
reports changed = false; the latched "Failed to execute usbip" message
enters the log exactly once in total (zero times when already latched
before), but the allow-list rejection logs "Command not allowed" twice on
every cycle, so the log grows by 2n plus the at-most-one latched entry —
the per-cycle re-logging is not suppressed. -/
theorem enumerator_failure_relogging (exec : String → Int) (s : RegistryState)
    (n : Nat) (hfail : exec "usbip list -l" ≠ 0) (hn : 1 ≤ n) :
    (iter_poll_fail_logged exec n s).devices = s.devices
    ∧ (∀ k parsed, (device_poll_cycle_logged exec parsed
          (iter_poll_fail_logged exec k s)).2.1 = false)
    ∧ (iter_poll_fail_logged exec n s).log.length
        = s.log.length + 2 * n + (if s.usbipErrorShown then 0 else 1)
    ∧ (iter_poll_fail_logged exec n s).log.count "Failed to execute usbip"
        = s.log.count "Failed to execute usbip"
          + (if s.usbipErrorShown then 0 else 1) := by
  obtain ⟨d1, d2, d3⟩ := iter_logged_fail_core exec hfail n s hn
  exact ⟨d1, fun k parsed => poll_logged_fail_changed exec parsed _ hfail, d2, d3⟩

theorem enumerator_failure_relogging_witness :
    (fun _ => (1 : Int)) "usbip list -l" ≠ 0
    ∧ 1 ≤ 3
    ∧ ((iter_poll_fail_logged (fun _ => (1 : Int)) 3 ⟨[], false, []⟩).devices
          = (⟨[], false, []⟩ : RegistryState).devices
      ∧ (∀ k parsed, (device_poll_cycle_logged (fun _ => (1 : Int)) parsed
            (iter_poll_fail_logged (fun _ => (1 : Int)) k ⟨[], false, []⟩)).2.1 = false)
      ∧ (iter_poll_fail_logged (fun _ => (1 : Int)) 3 ⟨[], false, []⟩).log.length
          = (⟨[], false, []⟩ : RegistryState).log.length + 2 * 3
            + (if (⟨[], false, []⟩ : RegistryState).usbipErrorShown then 0 else 1)
      ∧ (iter_poll_fail_logged (fun _ => (1 : Int)) 3 ⟨[], false, []⟩).log.count
            "Failed to execute usbip"
          = (⟨[], false, []⟩ : RegistryState).log.count "Failed to execute usbip"
            + (if (⟨[], false, []⟩ : RegistryState).usbipErrorShown then 0 else 1)) :=
  ⟨by decide, by decide,
   enumerator_failure_relogging (fun _ => (1 : Int)) ⟨[], false, []⟩ 3
     (by decide) (by decide)⟩

/-- C10: the client table never exceeds `MAX_CLIENTS = 10` slots — every
operation on it (adding an SSE client, removing a client, broadcasting
with failure-removal) preserves the bound (the count is a list length,
hence never negative) — and an add attempted while the table is full
leaves the table completely unchanged: the C function is `void`, logs
nothing and reports no error, so the connection is silently never added
and can receive no future updates. -/
theorem client_table_bounded (cs : List ClientSt) (sock : Int) (sendOk : Int → Bool)
    (h : cs.length ≤ maxClients) :
    (add_sse_client cs sock).length ≤ maxClients
    ∧ (remove_client cs sock).length ≤ maxClients
    ∧ (broadcast_clients sendOk cs).length ≤ maxClients
    ∧ (cs.length = maxClients → add_sse_client cs sock = cs) := by
  refine ⟨?_, ?_, ?_, ?_⟩
  · unfold add_sse_client
    split
    · rename_i hlt
      simp only [List.length_append, List.length_cons, List.length_nil]
      omega
    · exact h
  · unfold remove_client
    cases hidx : cs.findIdx? (fun c => c.socket == sock) with
    | none => exact h
    | some i =>
      simp only [List.length_dropLast, List.length_set]
      omega
  · exact le_trans (List.length_filter_le _ _) h
  · intro hf
    unfold add_sse_client
    rw [if_neg (by omega)]

theorem client_table_bounded_witness :
    ([⟨1, true⟩, ⟨2, true⟩, ⟨3, true⟩, ⟨4, true⟩, ⟨5, true⟩, ⟨6, true⟩, ⟨7, true⟩,
        ⟨8, true⟩, ⟨9, true⟩, ⟨10, true⟩] : List ClientSt).length ≤ maxClients
    ∧ ((add_sse_client [⟨1, true⟩, ⟨2, true⟩, ⟨3, true⟩, ⟨4, true⟩, ⟨5, true⟩, ⟨6, true⟩,
          ⟨7, true⟩, ⟨8, true⟩, ⟨9, true⟩, ⟨10, true⟩] 11).length ≤ maxClients
      ∧ (remove_client [⟨1, true⟩, ⟨2, true⟩, ⟨3, true⟩, ⟨4, true⟩, ⟨5, true⟩, ⟨6, true⟩,
          ⟨7, true⟩, ⟨8, true⟩, ⟨9, true⟩, ⟨10, true⟩] 11).length ≤ maxClients
      ∧ (broadcast_clients (fun _ => false) [⟨1, true⟩, ⟨2, true⟩, ⟨3, true⟩, ⟨4, true⟩,
          ⟨5, true⟩, ⟨6, true⟩, ⟨7, true⟩, ⟨8, true⟩, ⟨9, true⟩,
          ⟨10, true⟩]).length ≤ maxClients
      ∧ (([⟨1, true⟩, ⟨2, true⟩, ⟨3, true⟩, ⟨4, true⟩, ⟨5, true⟩, ⟨6, true⟩, ⟨7, true⟩,
          ⟨8, true⟩, ⟨9, true⟩, ⟨10, true⟩] : List ClientSt).length = maxClients →
          add_sse_client [⟨1, true⟩, ⟨2, true⟩, ⟨3, true⟩, ⟨4, true⟩, ⟨5, true⟩, ⟨6, true⟩,
            ⟨7, true⟩, ⟨8, true⟩, ⟨9, true⟩, ⟨10, true⟩] 11
            = [⟨1, true⟩, ⟨2, true⟩, ⟨3, true⟩, ⟨4, true⟩, ⟨5, true⟩, ⟨6, true⟩, ⟨7, true⟩,
                ⟨8, true⟩, ⟨9, true⟩, ⟨10, true⟩])) :=
  ⟨by decide,
   client_table_bounded
     [⟨1, true⟩, ⟨2, true⟩, ⟨3, true⟩, ⟨4, true⟩, ⟨5, true⟩, ⟨6, true⟩, ⟨7, true⟩,
       ⟨8, true⟩, ⟨9, true⟩, ⟨10, true⟩] 11 (fun _ => false) (by decide)⟩

/-- C9: one publish of a snapshot in the hub enqueues the one shared
snapshot value to every subscriber whose bounded queue (capacity 10) has
room, leaves a full subscriber's queue exactly as it was (the update is
dropped, not queued), never adds or removes subscribers, and the outcome
at subscriber i depends only on subscriber i's own queue — the state of
any other (arbitrarily backed-up) subscriber cannot affect or delay
subscriber i's delivery.  The publish itself is a total function of the
queues, so a full queue cannot stall it. -/
theorem hub_publish_nonblocking_drop (snap : List Device)
    (qs qs2 : List (List (List Device))) (i : Nat) (q : List (List Device))
    (hq : qs[i]? = some q) (hq2 : qs2[i]? = some q) :
    (goBroadcastUpdate snap qs).length = qs.length
    ∧ (q.length < subscriberCap →
        (goBroadcastUpdate snap qs)[i]? = some (q ++ [snap]))
    ∧ (subscriberCap ≤ q.length →
        (goBroadcastUpdate snap qs)[i]? = some q)
    ∧ (goBroadcastUpdate snap qs2)[i]? = (goBroadcastUpdate snap qs)[i]? := by
  unfold goBroadcastUpdate
  refine ⟨by simp, ?_, ?_, ?_⟩
  · intro hlt
    rw [List.getElem?_map, hq]
    simp [if_pos hlt]
  · intro hge
    rw [List.getElem?_map, hq]
    simp [Nat.not_lt.mpr hge]
  · rw [List.getElem?_map, List.getElem?_map, hq, hq2]

theorem hub_publish_nonblocking_drop_witness :
    ([List.replicate 10 [], []] : List (List (List Device)))[0]?
        = some (List.replicate 10 [])
    ∧ ([List.replicate 10 []] : List (List (List Device)))[0]?
        = some (List.replicate 10 [])
    ∧ ((goBroadcastUpdate [⟨"1-1", "", true⟩] [List.replicate 10 [], []]).length
          = ([List.replicate 10 [], []] : List (List (List Device))).length
      ∧ ((List.replicate 10 ([] : List Device)).length < subscriberCap →
          (goBroadcastUpdate [⟨"1-1", "", true⟩] [List.replicate 10 [], []])[0]?
            = some (List.replicate 10 [] ++ [[⟨"1-1", "", true⟩]]))
      ∧ (subscriberCap ≤ (List.replicate 10 ([] : List Device)).length →
          (goBroadcastUpdate [⟨"1-1", "", true⟩] [List.replicate 10 [], []])[0]?
            = some (List.replicate 10 []))
      ∧ (goBroadcastUpdate [⟨"1-1", "", true⟩] [List.replicate 10 []])[0]?
          = (goBroadcastUpdate [⟨"1-1", "", true⟩] [List.replicate 10 [], []])[0]?) :=
  ⟨by decide, by decide,
   hub_publish_nonblocking_drop [⟨"1-1", "", true⟩] [List.replicate 10 [], []]
     [List.replicate 10 []] 0 (List.replicate 10 []) (by decide) (by decide)⟩

theorem leadsWith_app (l r : List Char) : leadsWith l (l ++ r) = true := by
  induction l with
  | nil => rfl
  | cons c cs ih => simp [leadsWith, ih]

theorem truncTo_eq_self (n : Nat) (s : String) (h : s.length ≤ n) : truncTo n s = s := by
  unfold truncTo
  rw [List.take_of_length_le h]

theorem filter_pos_len_eq (ids : List String) (h : ∀ i ∈ ids, 1 ≤ i.length) :
    (ids.filter fun i => 0 < i.length) = ids := by
  apply List.filter_eq_self.mpr
  intro a ha
  simpa using h a ha

theorem str_assoc (a b c : String) : (a ++ b) ++ c = a ++ (b ++ c) := by
  obtain ⟨x⟩ := a
  obtain ⟨y⟩ := b
  obtain ⟨z⟩ := c
  show String.mk ((x ++ y) ++ z) = String.mk (x ++ (y ++ z))
  rw [List.append_assoc]

theorem str_app_nil (a : String) : a ++ "" = a := by
  obtain ⟨x⟩ := a
  show String.mk (x ++ []) = String.mk x
  rw [List.append_nil]

theorem str_nil_app (a : String) : "" ++ a = a := by
  obtain ⟨x⟩ := a
  rfl

theorem load_line_port (cfg : ConfigSt) (x : String) :
    load_line cfg ("port=" ++ x)
      = { cfg with port := atoi (dropChars 5 ("port=" ++ x)) } := by
  obtain ⟨d⟩ := x
  rfl

theorem load_line_bind (cfg : ConfigSt) (x : String) :
    load_line cfg ("bind=" ++ x)
      = { cfg with bind_address := truncTo 63 (dropChars 5 ("bind=" ++ x)) } := by
  obtain ⟨d⟩ := x
  rfl

theorem load_line_poll (cfg : ConfigSt) (x : String) :
    load_line cfg ("poll_interval=" ++ x)
      = { cfg with poll_interval := atoi (dropChars 14 ("poll_interval=" ++ x)) } := by
  obtain ⟨d⟩ := x
  rfl

theorem prefEq_keys_bound (x : String) :
    prefEq "port=" ("bound_device=" ++ x) = false
    ∧ prefEq "bind=" ("bound_device=" ++ x) = false
    ∧ prefEq "poll_interval=" ("bound_device=" ++ x) = false
    ∧ prefEq "verbose_logging=" ("bound_device=" ++ x) = false
    ∧ prefEq "log_file=" ("bound_device=" ++ x) = false
    ∧ prefEq "bound_device=" ("bound_device=" ++ x) = true := by
  obtain ⟨d⟩ := x
  exact ⟨rfl, rfl, rfl, rfl, rfl, rfl⟩

theorem dropChars_bound_line (x : String) :
    dropChars 13 ("bound_device=" ++ x) = x := by
  obtain ⟨d⟩ := x
  rfl

theorem load_line_bound (cfg : ConfigSt) (x : String)
    (h : cfg.bound_devices.length < 32) :
    load_line cfg ("bound_device=" ++ x)
      = { cfg with bound_devices := cfg.bound_devices ++ [truncTo 15 x] } := by
  have hk := prefEq_keys_bound x
  simp [load_line, hk.1, hk.2.1, hk.2.2.1, hk.2.2.2.1, hk.2.2.2.2.1, hk.2.2.2.2.2,
    dropChars_bound_line, h]

theorem load_fold_bound (ids : List String) (cfg : ConfigSt)
    (h : cfg.bound_devices.length + ids.length ≤ 32) :
    ((ids.map fun i => "bound_device=" ++ i).foldl load_line cfg).bound_devices
      = cfg.bound_devices ++ ids.map (truncTo 15) := by
  induction ids generalizing cfg with
  | nil => simp
  | cons i is ih =>
    simp only [List.map_cons, List.foldl_cons]
    rw [load_line_bound cfg i (by simp only [List.length_cons] at h; omega)]
    rw [ih]
    · simp
    · simp only [List.length_append, List.length_cons, List.length_nil] at h ⊢
      omega

theorem update_bound_eq (devices : List Device) (hlen : devices.length ≤ 32)
    (hbus : ∀ d ∈ devices, d.bound = true → d.busid.length ≤ 15) :
    update_bound_devices_config devices
      = (devices.filter fun d => d.bound).map fun d => d.busid := by
  unfold update_bound_devices_config
  have hmap : (devices.filter fun d => d.bound).map (fun d => truncTo 15 d.busid)
      = (devices.filter fun d => d.bound).map fun d => d.busid := by
    apply List.map_congr_left
    intro d hd
    have hmem := List.mem_filter.mp hd
    exact truncTo_eq_self 15 d.busid (hbus d hmem.1 hmem.2)
  rw [hmap]
  apply List.take_of_length_le
  rw [List.length_map]
  exact le_trans (List.length_filter_le _ _) hlen

/-- C5: saving the configuration records exactly the bus ids of the bound
devices (in device-list order) and loading the file back reproduces that
very list — so the bound-id set is preserved (membership both ways), and
the replay sequence handed to the restore step follows the stored order.
The hypotheses state what the C data layout guarantees for every
program-produced device list: at most `MAX_DEVICES = 32` devices, and a
bound device's bus id is non-empty and fits the `char[16]` field. -/
theorem config_save_load_roundtrip (cfg cfg0 : ConfigSt) (devices : List Device)
    (hlen : devices.length ≤ 32)
    (hbus : ∀ d ∈ devices, d.bound = true → 1 ≤ d.busid.length ∧ d.busid.length ≤ 15) :
    (load_config cfg0 (save_config_lines cfg devices)).bound_devices
        = (devices.filter fun d => d.bound).map (fun d => d.busid)
    ∧ (∀ x, x ∈ (load_config cfg0 (save_config_lines cfg devices)).bound_devices
          ↔ x ∈ (devices.filter fun d => d.bound).map (fun d => d.busid))
    ∧ restore_sequence (load_config cfg0 (save_config_lines cfg devices))
        = (devices.filter fun d => d.bound).map (fun d => d.busid) := by
  have hids : ∀ i ∈ (devices.filter fun d => d.bound).map (fun d => d.busid),
      1 ≤ i.length ∧ i.length ≤ 15 := by
    intro i hi
    obtain ⟨d, hd, rfl⟩ := List.mem_map.mp hi
    have hmem := List.mem_filter.mp hd
    exact hbus d hmem.1 hmem.2
  have hupd : update_bound_devices_config devices
      = (devices.filter fun d => d.bound).map fun d => d.busid :=
    update_bound_eq devices hlen (fun d hd hb => (hbus d hd hb).2)
  have htrunc : ((devices.filter fun d => d.bound).map fun d => d.busid).map (truncTo 15)
      = (devices.filter fun d => d.bound).map fun d => d.busid := by
    have hid : ((devices.filter fun d => d.bound).map fun d => d.busid).map (truncTo 15)
        = ((devices.filter fun d => d.bound).map fun d => d.busid).map id :=
      List.map_congr_left (fun i hi => truncTo_eq_self 15 i ((hids i hi).2))
    rw [hid, List.map_id]
  have hcount : ((devices.filter fun d => d.bound).map fun d => d.busid).length ≤ 32 := by
    rw [List.length_map]
    exact le_trans (List.length_filter_le _ _) hlen
  have hmain : (load_config cfg0 (save_config_lines cfg devices)).bound_devices
      = (devices.filter fun d => d.bound).map fun d => d.busid := by
    unfold load_config save_config_lines
    rw [hupd, filter_pos_len_eq _ (fun i hi => (hids i hi).1)]
    rw [List.foldl_append]
    simp only [List.foldl_cons, List.foldl_nil]
    rw [load_line_port, load_line_bind, load_line_poll]
    rw [load_fold_bound _ _ (by simpa using hcount)]
    simpa using htrunc
  refine ⟨hmain, fun x => by rw [hmain], ?_⟩
  unfold restore_sequence
  rw [hmain]
  exact filter_pos_len_eq _ (fun i hi => (hids i hi).1)

theorem config_save_load_roundtrip_witness :
    ([⟨"1-1.2", "usb", true⟩, ⟨"3-2", "hub", false⟩, ⟨"2-1", "kb", true⟩] :
        List Device).length ≤ 32
    ∧ (∀ d ∈ ([⟨"1-1.2", "usb", true⟩, ⟨"3-2", "hub", false⟩, ⟨"2-1", "kb", true⟩] :
        List Device), d.bound = true → 1 ≤ d.busid.length ∧ d.busid.length ≤ 15)
    ∧ ((load_config ⟨0, "", 0, 0, "", "", []⟩
          (save_config_lines ⟨11980, "0.0.0.0", 3, 1, "/var/log/usbctl.log",
            "/etc/usbctl/config", []⟩
            [⟨"1-1.2", "usb", true⟩, ⟨"3-2", "hub", false⟩, ⟨"2-1", "kb", true⟩])).bound_devices
        = (([⟨"1-1.2", "usb", true⟩, ⟨"3-2", "hub", false⟩, ⟨"2-1", "kb", true⟩] :
            List Device).filter fun d => d.bound).map (fun d => d.busid)
      ∧ (∀ x, x ∈ (load_config ⟨0, "", 0, 0, "", "", []⟩
          (save_config_lines ⟨11980, "0.0.0.0", 3, 1, "/var/log/usbctl.log",
            "/etc/usbctl/config", []⟩
            [⟨"1-1.2", "usb", true⟩, ⟨"3-2", "hub", false⟩, ⟨"2-1", "kb", true⟩])).bound_devices
          ↔ x ∈ (([⟨"1-1.2", "usb", true⟩, ⟨"3-2", "hub", false⟩, ⟨"2-1", "kb", true⟩] :
            List Device).filter fun d => d.bound).map (fun d => d.busid))
      ∧ restore_sequence (load_config ⟨0, "", 0, 0, "", "", []⟩
          (save_config_lines ⟨11980, "0.0.0.0", 3, 1, "/var/log/usbctl.log",
            "/etc/usbctl/config", []⟩
            [⟨"1-1.2", "usb", true⟩, ⟨"3-2", "hub", false⟩, ⟨"2-1", "kb", true⟩]))
        = (([⟨"1-1.2", "usb", true⟩, ⟨"3-2", "hub", false⟩, ⟨"2-1", "kb", true⟩] :
            List Device).filter fun d => d.bound).map (fun d => d.busid)) :=
  ⟨by decide, by decide,
   config_save_load_roundtrip ⟨11980, "0.0.0.0", 3, 1, "/var/log/usbctl.log",
       "/etc/usbctl/config", []⟩ ⟨0, "", 0, 0, "", "", []⟩
     [⟨"1-1.2", "usb", true⟩, ⟨"3-2", "hub", false⟩, ⟨"2-1", "kb", true⟩]
     (by decide) (by decide)⟩

theorem runOps_writes (p : String) (ls : List String) :
    ∀ (j : Nat) (fs : String → Option String) (t : String), fs p = some t →
      runOps fs (((ls.map fun l => FsOp.write p (l ++ "\n")) ++ [FsOp.closeF p]).take j) p
        = some (t ++ strConcat ((ls.map fun l => l ++ "\n").take j)) := by
  induction ls with
  | nil =>
    intro j fs t ht
    cases j with
    | zero => simpa [runOps, strConcat, str_app_nil] using ht
    | succ j => simp [runOps, applyOp, strConcat, str_app_nil, ht]
  | cons l ls ih =>
    intro j fs t ht
    cases j with
    | zero => simpa [runOps, strConcat, str_app_nil] using ht
    | succ j =>
      simp only [List.map_cons, List.cons_append, List.take_succ_cons]
      simp only [runOps, List.foldl_cons]
      have h2 : applyOp fs (FsOp.write p (l ++ "\n")) p = some (t ++ (l ++ "\n")) := by
        simp [applyOp, ht]
      have h3 := ih j (applyOp fs (FsOp.write p (l ++ "\n"))) (t ++ (l ++ "\n")) h2
      simp only [runOps] at h3
      rw [h3, strConcat]
      exact congrArg some (str_assoc t (l ++ "\n") _)

/-- C6 (amended): `save_config` is not atomic — it opens the config path
itself with a truncating open and then writes line by line, with no
temporary file and no rename in its operation trace; a save interrupted
after its k-th file operation (k ≥ 1) leaves the config file holding
exactly the lines written so far — empty right after the open —
regardless of what the previously persisted record was. -/
theorem save_config_interrupted_partial (cfg : ConfigSt) (devices : List Device)
    (fs : String → Option String) (k : Nat) (h : 1 ≤ k) :
    runOps fs ((save_config_ops cfg devices).take k) cfg.config_path
      = some (strConcat
          (((save_config_lines cfg devices).map fun l => l ++ "\n").take (k - 1))) := by
  obtain ⟨j, rfl⟩ : ∃ j, k = j + 1 := ⟨k - 1, by omega⟩
  simp only [save_config_ops, List.take_succ_cons, Nat.add_sub_cancel]
  simp only [runOps, List.foldl_cons]
  have hopen : applyOp fs (FsOp.openW cfg.config_path) cfg.config_path = some "" := by
    simp [applyOp]
  have h3 := runOps_writes cfg.config_path (save_config_lines cfg devices) j
    (applyOp fs (FsOp.openW cfg.config_path)) "" hopen
  simp only [runOps] at h3
  rw [h3]
  exact congrArg some (str_nil_app _)

theorem save_config_interrupted_partial_witness :
    1 ≤ 1
    ∧ runOps (fun _ => none)
        ((save_config_ops ⟨11980, "0.0.0.0", 3, 1, "/var/log/usbctl.log",
            "/etc/usbctl/config", []⟩ [⟨"1-1.2", "usb", true⟩]).take 1)
        (⟨11980, "0.0.0.0", 3, 1, "/var/log/usbctl.log", "/etc/usbctl/config", []⟩ :
          ConfigSt).config_path
      = some (strConcat
          (((save_config_lines ⟨11980, "0.0.0.0", 3, 1, "/var/log/usbctl.log",
              "/etc/usbctl/config", []⟩ [⟨"1-1.2", "usb", true⟩]).map
            fun l => l ++ "\n").take (1 - 1))) :=
  ⟨by decide,
   save_config_interrupted_partial ⟨11980, "0.0.0.0", 3, 1, "/var/log/usbctl.log",
       "/etc/usbctl/config", []⟩ [⟨"1-1.2", "usb", true⟩] (fun _ => none) 1 (by decide)⟩

/-- C6 counterexample: with "port=9\nbound_device=3-2\n" previously
persisted at the config path, a save interrupted immediately after its
first file operation (the truncating open) leaves the file empty: the
previously persisted record is destroyed, not left intact — there is no
write-to-temp-plus-rename. -/
theorem save_config_destroys_old_record_cex :
    (runOps (fun q => if q = "/etc/usbctl/config" then some "port=9\nbound_device=3-2\n"
        else none)
      ((save_config_ops ⟨11980, "0.0.0.0", 3, 1, "/var/log/usbctl.log",
          "/etc/usbctl/config", []⟩ [⟨"1-1.2", "usb", true⟩]).take 1))
      "/etc/usbctl/config" = some ""
    ∧ (fun q => if q = "/etc/usbctl/config" then some "port=9\nbound_device=3-2\n"
        else none) "/etc/usbctl/config" = some "port=9\nbound_device=3-2\n"
    ∧ (some "" : Option String) ≠ some "port=9\nbound_device=3-2\n" := by decide

end Usbctl
